import Mathlib

/-!
# Shallow embedding of the invite-email API service (src/server.js)

The service is a single-file Express application. We embed its pure helpers
(`extractEmail`, `formatFrom`, `buildInviteBodies`, `applyCors`), its
configuration derivation from environment variables, and the request handling
of `POST /send-invite-email` (including the CORS middleware and routing) as
executable Lean functions. JavaScript strings are modelled as `String`, with
all string transformations implemented over `String.data` (`List Char`) so that
every definition is kernel-computable. `null`/`undefined`/absent string values
are modelled as `Option String`, with JavaScript truthiness (`null`, `undefined`
and `""` are falsy) made explicit.
-/

namespace InviteEmail

/-- JavaScript truthiness of a nullable string: `null`/`undefined` and `""` are
falsy, every other string is truthy. -/
def jsTruthy : Option String → Bool
  | none => false
  | some s => !s.data.isEmpty

/-- JavaScript `a || b` on nullable strings: `b` when `a` is falsy. -/
def jsOr (a b : Option String) : Option String :=
  if jsTruthy a then a else b

/-- JavaScript `a || null` (also `a || undefined`) on a nullable string:
collapses a falsy value to `none`. -/
def jsOrNull (a : Option String) : Option String :=
  if jsTruthy a then a else none

/-- Leading and trailing whitespace removal on character lists (the model of
JavaScript `String.prototype.trim`). -/
def trimChars (cs : List Char) : List Char :=
  ((cs.dropWhile Char.isWhitespace).reverse.dropWhile Char.isWhitespace).reverse

/-- Model of JavaScript `s.trim()`. -/
def jsTrim (s : String) : String := ⟨trimChars s.data⟩

/-- Model of JavaScript `s.toLowerCase()`. -/
def jsToLower (s : String) : String := ⟨s.data.map Char.toLower⟩

/-- Model of JavaScript `s.replace(/_/g, ' ')`: every underscore becomes a
space. -/
def replaceUnderscores (s : String) : String :=
  ⟨s.data.map (fun c => if c = '_' then ' ' else c)⟩

/-- The capture group of the first match of the regex `/<([^>]+)>/`: the first
`<`-and-`>`-delimited segment that is non-empty and contains no `>`. `none`
when the regex does not match. -/
def firstAngle : List Char → Option (List Char)
  | [] => none
  | c :: rest =>
    if c = '<' then
      let content := rest.takeWhile (fun x => x ≠ '>')
      if content.length ≠ 0 ∧ content.length < rest.length then some content
      else firstAngle rest
    else firstAngle rest

/-- `extractEmail` from src/server.js (lines 183-190): non-strings give `null`;
the value is trimmed; an empty trimmed value gives `null`; the first
`<...>`-bracketed segment of the trimmed value (if the regex matches, without
further trimming) or else the whole trimmed value is lower-cased and returned
iff it contains `@`, else `null`. -/
def extractEmail (value : Option String) : Option String :=
  match value with
  | none => none
  | some v =>
    let trimmed := jsTrim v
    if trimmed.data.isEmpty then none
    else
      let email := jsToLower (match firstAngle trimmed.data with
        | some content => ⟨content⟩
        | none => trimmed)
      if email.data.contains '@' then some email else none

/-- `formatFrom` from src/server.js (lines 192-196): `null` for a falsy email,
`"name <email>"` when a name is present, else the bare email. -/
def formatFrom (name : String) (email : Option String) : Option String :=
  match email with
  | none => none
  | some e =>
    if e.data.isEmpty then none
    else if name.data.isEmpty then some e
    else some (name ++ " <" ++ e ++ ">")

/-- The record destructured by `buildInviteBodies`. -/
structure ComposeInput where
  firstName : Option String
  lastName : Option String
  role : Option String
  organizationName : Option String
  link : String
deriving Repr, DecidableEq

/-- The record returned by `buildInviteBodies`. -/
structure ComposedMessage where
  subject : String
  textBody : String
  htmlBody : String
deriving Repr, DecidableEq

/-- `[firstName, lastName].filter(Boolean).join(' ')`: the truthy (present and
non-empty) name parts joined by a single space. -/
def joinedNameParts (firstName lastName : Option String) : String :=
  let parts := [firstName, lastName].filterMap (fun o =>
    match o with
    | some s => if s.data.isEmpty then none else some s
    | none => none)
  match parts with
  | [] => ""
  | [s] => s
  | s :: rest => (rest.foldl (fun acc t => acc ++ " " ++ t) s)

/-- The `recipientName` binding of `buildInviteBodies`:
`[firstName, lastName].filter(Boolean).join(' ').trim() || 'there'`. -/
def recipientNameOf (firstName lastName : Option String) : String :=
  let j := jsTrim (joinedNameParts firstName lastName)
  if j.data.isEmpty then "there" else j

/-- The `subjectOrg` binding of `buildInviteBodies`:
`(organizationName && organizationName.trim()) || 'Attendance Platform'`. -/
def subjectOrgOf (organizationName : Option String) : String :=
  match organizationName with
  | none => "Attendance Platform"
  | some s =>
    if s.data.isEmpty then "Attendance Platform"
    else if (jsTrim s).data.isEmpty then "Attendance Platform"
    else jsTrim s

/-- The `roleLabel` binding of `buildInviteBodies`:
`role ? String(role).replace(/_/g, ' ') : 'member'`. -/
def roleLabelOf (role : Option String) : String :=
  match role with
  | none => "member"
  | some r => if r.data.isEmpty then "member" else replaceUnderscores r

/-- `buildInviteBodies` from src/server.js (lines 198-222). The text body is
the 7-line template joined by newlines; the HTML body is the template literal
with its exact indentation. -/
def buildInviteBodies (inp : ComposeInput) : ComposedMessage :=
  let recipientName := recipientNameOf inp.firstName inp.lastName
  let subjectOrg := subjectOrgOf inp.organizationName
  let roleLabel := roleLabelOf inp.role
  { subject := "You're invited to " ++ subjectOrg
  , textBody :=
      "Hi " ++ recipientName ++ ",\n\nYou've been invited to join " ++ subjectOrg ++
      " as a " ++ roleLabel ++
      ".\nUse the link below to set up your username and password:\n" ++ inp.link ++
      "\n\nIf you were not expecting this email, you can ignore it."
  , htmlBody :=
      "\n    <p>Hi " ++ recipientName ++ ",</p>\n    <p>You've been invited to join <strong>" ++
      subjectOrg ++ "</strong> as a <strong>" ++ roleLabel ++
      "</strong>.</p>\n    <p><a href=\"" ++ inp.link ++
      "\" target=\"_blank\" rel=\"noopener noreferrer\">Click here to finish registration</a>.</p>\n    <p>If you were not expecting this email, you can ignore it.</p>\n  " }

/-- The raw environment variables the service reads (src/server.js lines 7-23).
`none` models an unset variable; `some ""` a set-but-empty one. -/
structure Env where
  SMTP_USER : Option String
  SMTP_PASS : Option String
  INVITE_FROM_NAME : Option String
  INVITE_FROM_EMAIL : Option String
  INVITE_REPLY_TO : Option String
  INVITE_EMAIL_API_KEY : Option String
  INVITE_ALLOWED_ORIGINS : Option String
deriving Repr, DecidableEq

/-- The module-level state the handlers read: the resolved configuration
constants plus whether the nodemailer transporter was constructed.
Kept as a free structure so the handler can be studied on any state;
`deriveConfig` below produces the states reachable from an environment. -/
structure Config where
  smtpUser : Option String
  smtpPass : Option String
  inviteFromName : String
  inviteFromEmail : Option String
  inviteReplyTo : Option String
  apiKey : Option String
  allowedOrigins : List String
  allowAnyOrigin : Bool
  transporter : Bool
deriving Repr, DecidableEq

/-- JavaScript `s.split(',')` (always at least one piece). -/
def splitCommaAux : List Char → List Char → List String
  | [], acc => [⟨acc.reverse⟩]
  | c :: rest, acc =>
    if c = ',' then (⟨acc.reverse⟩ : String) :: splitCommaAux rest []
    else splitCommaAux rest (c :: acc)

/-- Model of JavaScript `s.split(',')`. -/
def splitCommas (s : String) : List String := splitCommaAux s.data []

/-- The configuration derivation of src/server.js lines 13-36:
`SMTP_USER`/`SMTP_PASS` default to `null`, the sender name defaults to
`"Attendance Platform"`, the sender email falls back to `SMTP_USER`, the
allowed origins are the comma-separated, trimmed, truthy-filtered entries of
`INVITE_ALLOWED_ORIGINS` (default `"*"`), wildcard mode holds when `*` is among
them, and the transporter is constructed iff both SMTP credentials are
truthy. -/
def deriveConfig (e : Env) : Config :=
  let smtpUser := if jsTruthy e.SMTP_USER then e.SMTP_USER else none
  let smtpPass := if jsTruthy e.SMTP_PASS then e.SMTP_PASS else none
  let origins := ((splitCommas ((jsOr e.INVITE_ALLOWED_ORIGINS (some "*")).getD "*")).map
      jsTrim).filter (fun s => !s.data.isEmpty)
  { smtpUser := smtpUser
  , smtpPass := smtpPass
  , inviteFromName := (jsOr e.INVITE_FROM_NAME (some "Attendance Platform")).getD "Attendance Platform"
  , inviteFromEmail := jsOr e.INVITE_FROM_EMAIL smtpUser
  , inviteReplyTo := if jsTruthy e.INVITE_REPLY_TO then e.INVITE_REPLY_TO else none
  , apiKey := if jsTruthy e.INVITE_EMAIL_API_KEY then e.INVITE_EMAIL_API_KEY else none
  , allowedOrigins := origins
  , allowAnyOrigin := origins.any (fun s => s = "*")
  , transporter := jsTruthy smtpUser && jsTruthy smtpPass }

/-- The JSON body of a send request. Fields that are absent or not strings are
`none` (the handler treats non-string values exactly like absent ones: via the
`typeof` checks in `extractEmail` and the `link` normalization). `fromField`
is the body's `from` property. -/
structure ReqBody where
  email : Option String
  link : Option String
  first_name : Option String
  last_name : Option String
  role : Option String
  organization_name : Option String
  fromField : Option String
deriving Repr, DecidableEq

/-- The `{}` that `req.body || {}` falls back to. -/
def emptyPayload : ReqBody :=
  { email := none, link := none, first_name := none, last_name := none
  , role := none, organization_name := none, fromField := none }

/-- An inbound HTTP request, restricted to what the service reads: method,
path, the `Origin` and `x-api-key` headers, and the parsed JSON body
(`none` when no body was parsed). -/
structure Request where
  method : String
  path : String
  originHeader : Option String
  apiKeyHeader : Option String
  body : Option ReqBody
deriving Repr, DecidableEq

/-- The message handed to the mail dispatcher (`transporter.sendMail`). -/
structure MailMessage where
  fromAddr : Option String
  toAddr : String
  subject : String
  text : String
  html : String
  replyTo : Option String
deriving Repr, DecidableEq

/-- The dispatcher's success value (`info`): an optional message id. -/
structure SendInfo where
  messageId : Option String
deriving Repr, DecidableEq

/-- The external mail dispatcher: returns a `SendInfo` or throws an error
whose `.message` is the carried string. -/
def Dispatcher : Type := MailMessage → Except String SendInfo

/-- The JSON bodies the service can respond with. -/
inductive RespBody where
  /-- `{ error: <msg> }` -/
  | errorMsg (msg : String)
  /-- `{ delivered: true, messageId: <id or null> }` -/
  | deliveredOk (messageId : Option String)
  /-- `{ delivered: false, reason: <msg> }` -/
  | deliveredFail (reason : String)
  /-- `{ ok: true }` (health endpoint) -/
  | okTrue
  /-- empty body (204 preflight response) -/
  | empty
  /-- the static OpenAPI document -/
  | openapiDoc
  /-- the Swagger UI page -/
  | docsPage
  /-- the framework 404 response -/
  | notFound
deriving Repr, DecidableEq

/-- Status, body and (for bookkeeping) the message passed to the dispatcher,
if dispatch was invoked at all. -/
structure HandlerOutcome where
  status : Nat
  body : RespBody
  dispatched : Option MailMessage
deriving Repr, DecidableEq

/-- `req.body || {}`. -/
def payloadOf (req : Request) : ReqBody := req.body.getD emptyPayload

/-- `typeof payload.link === 'string' ? payload.link.trim() : ''`. -/
def normalizedLink (payload : ReqBody) : String :=
  match payload.link with
  | some s => jsTrim s
  | none => ""

/-- The API-key gate of src/server.js lines 245-250: rejection happens exactly
when a key is configured and the provided header is falsy or differs from
it. -/
def authRejects (cfg : Config) (req : Request) : Bool :=
  jsTruthy cfg.apiKey &&
    (!jsTruthy req.apiKeyHeader || req.apiKeyHeader != cfg.apiKey)

/-- The `POST /send-invite-email` handler of src/server.js lines 244-293. -/
def sendInviteHandler (cfg : Config) (req : Request) (dispatch : Dispatcher) :
    HandlerOutcome :=
  if authRejects cfg req then
    { status := 401, body := .errorMsg "Unauthorized", dispatched := none }
  else
    let payload := payloadOf req
    let email := extractEmail payload.email
    let link := normalizedLink payload
    if !jsTruthy email || link.data.isEmpty then
      { status := 400, body := .errorMsg "Email and registration link are required."
      , dispatched := none }
    else if !cfg.transporter || !jsTruthy cfg.smtpUser || !jsTruthy cfg.smtpPass then
      { status := 500, body := .errorMsg "SMTP credentials are not configured."
      , dispatched := none }
    else if !jsTruthy cfg.inviteFromEmail then
      { status := 500, body := .errorMsg "INVITE_FROM_EMAIL is not configured."
      , dispatched := none }
    else
      let fromAddress := formatFrom cfg.inviteFromName cfg.inviteFromEmail
      let replyToAddress := jsOr cfg.inviteReplyTo (extractEmail payload.fromField)
      let bodies := buildInviteBodies
        { firstName := payload.first_name, lastName := payload.last_name
        , role := payload.role, organizationName := payload.organization_name
        , link := link }
      let msg : MailMessage :=
        { fromAddr := fromAddress, toAddr := email.getD "", subject := bodies.subject
        , text := bodies.textBody, html := bodies.htmlBody
        , replyTo := jsOrNull replyToAddress }
      match dispatch msg with
      | .ok info =>
        { status := 200, body := .deliveredOk (jsOrNull info.messageId)
        , dispatched := some msg }
      | .error m =>
        { status := 502, body := .deliveredFail m, dispatched := some msg }

/-- `applyCors` from src/server.js (lines 171-181): the response headers the
CORS middleware sets, in order. -/
def applyCors (cfg : Config) (req : Request) : List (String × String) :=
  (if cfg.allowAnyOrigin then [("Access-Control-Allow-Origin", "*")]
   else if jsTruthy req.originHeader &&
       cfg.allowedOrigins.any (fun s => some s = req.originHeader) then
     [("Access-Control-Allow-Origin", req.originHeader.getD "")]
   else []) ++
  [("Vary", "Origin"),
   ("Access-Control-Allow-Headers", "Content-Type, X-API-Key"),
   ("Access-Control-Allow-Methods", "GET, POST, OPTIONS")]

/-- Status/body/dispatch of the route a request reaches, after the CORS
middleware's OPTIONS short-circuit: the routes of src/server.js
lines 224-293. -/
def route (cfg : Config) (req : Request) (dispatch : Dispatcher) : HandlerOutcome :=
  if req.method = "OPTIONS" then
    { status := 204, body := .empty, dispatched := none }
  else if req.method = "GET" && req.path = "/openapi.json" then
    { status := 200, body := .openapiDoc, dispatched := none }
  else if req.path = "/docs" then
    { status := 200, body := .docsPage, dispatched := none }
  else if req.method = "GET" && req.path = "/health" then
    { status := 200, body := .okTrue, dispatched := none }
  else if req.method = "POST" && req.path = "/send-invite-email" then
    sendInviteHandler cfg req dispatch
  else
    { status := 404, body := .notFound, dispatched := none }

/-- A complete HTTP response of the service, headers included. -/
structure Response where
  status : Nat
  headers : List (String × String)
  body : RespBody
  dispatched : Option MailMessage
deriving Repr, DecidableEq

/-- The whole service: the CORS middleware sets its headers on every response
before routing (src/server.js lines 224-230), so every outcome carries
`applyCors`'s headers. -/
def service (cfg : Config) (req : Request) (dispatch : Dispatcher) : Response :=
  let out := route cfg req dispatch
  { status := out.status, headers := applyCors cfg req
  , body := out.body, dispatched := out.dispatched }

/-- The claimed reading of `extractEmail`, for comparison with the source
function: extract the bracketed portion if one is present (else take the value
itself), trim that portion, lower-case it, and return it iff it contains
`@`. -/
def extractEmailSpec (value : Option String) : Option String :=
  match value with
  | none => none
  | some v =>
    let base : String :=
      match firstAngle v.data with
      | some content => ⟨content⟩
      | none => v
    let email := jsToLower (jsTrim base)
    if email.data.contains '@' then some email else none

/-- The amended reading of `extractEmail`, written independently of the source
definition: trim the whole input first; an empty trimmed input gives `null`;
otherwise the bracketed portion of the trimmed input if the regex matches
(with no further trimming), else the trimmed input itself, is lower-cased and
returned iff it contains `@`. -/
def extractEmailAmended (value : Option String) : Option String :=
  value.bind fun v =>
    let t := jsTrim v
    if t.data.isEmpty then none
    else
      let email := jsToLower (((firstAngle t.data).map fun c => (⟨c⟩ : String)).getD t)
      if email.data.contains '@' then some email else none

/-- The claimed reading of the role label: the provided role with underscores
replaced by spaces, defaulting to `"member"` when the role is absent. -/
def roleLabelClaim : Option String → String
  | none => "member"
  | some r => replaceUnderscores r

/-- `needle` occurs as a contiguous substring of `hay`. -/
def strContains (hay needle : String) : Prop :=
  ∃ pre post, hay = pre ++ needle ++ post

/-! ## Helper lemmas -/

/-- A string's character list is empty exactly when the string is `""`. -/
theorem data_isEmpty_iff (s : String) : s.data.isEmpty = true ↔ s = "" := by
  cases s with
  | mk data =>
    constructor
    · intro h
      rw [List.isEmpty_iff] at h
      subst h
      rfl
    · intro h
      rw [h]
      rfl

/-- Truthiness of a JavaScript `a || b`. -/
theorem jsTruthy_jsOr (a b : Option String) :
    jsTruthy (jsOr a b) = (jsTruthy a || jsTruthy b) := by
  unfold jsOr
  cases h : jsTruthy a <;> simp [h]

/-- Any address returned by `extractEmail` contains `@`. -/
theorem extractEmail_contains_at (v : Option String) (s : String)
    (h : extractEmail v = some s) : s.data.contains '@' = true := by
  cases v with
  | none => simp [extractEmail] at h
  | some v =>
    simp only [extractEmail] at h
    split at h
    · simp at h
    · split at h
      case _ hat => rw [Option.some.injEq] at h; rw [← h]; exact hat
      · simp at h

/-- `extractEmail` never returns the empty string, so a non-`null` result is
truthy. -/
theorem jsTruthy_extractEmail_of_ne_none (v : Option String)
    (h : extractEmail v ≠ none) : jsTruthy (extractEmail v) = true := by
  obtain ⟨s, hs⟩ := Option.ne_none_iff_exists'.mp h
  have hat := extractEmail_contains_at v s hs
  rw [hs]
  simp only [jsTruthy]
  cases hd : s.data with
  | nil => rw [hd] at hat; exact absurd hat (by decide)
  | cons c cs => simp [hd]

/-- A nullable string other than `some ""` is unchanged by `|| null`. -/
theorem jsOrNull_of_ne_some_empty (o : Option String) (h : o ≠ some "") :
    jsOrNull o = o := by
  cases o with
  | none => rfl
  | some s =>
    unfold jsOrNull jsTruthy
    have : s ≠ "" := fun hs => h (by rw [hs])
    have hne : s.data.isEmpty = false := by
      cases he : s.data.isEmpty
      · rfl
      · exact absurd ((data_isEmpty_iff s).mp he) this
    simp [hne]

/-- Projections of `service` in terms of `route` and `applyCors`. -/
theorem service_parts (cfg : Config) (req : Request) (d : Dispatcher) :
    (service cfg req d).status = (route cfg req d).status ∧
    (service cfg req d).body = (route cfg req d).body ∧
    (service cfg req d).dispatched = (route cfg req d).dispatched ∧
    (service cfg req d).headers = applyCors cfg req :=
  ⟨rfl, rfl, rfl, rfl⟩

/-- A `POST /send-invite-email` request reaches `sendInviteHandler`. -/
theorem route_post_send (cfg : Config) (req : Request) (d : Dispatcher)
    (hm : req.method = "POST") (hp : req.path = "/send-invite-email") :
    route cfg req d = sendInviteHandler cfg req d := by
  simp [route, hm, hp]

/-- Whenever a configuration's sender email is truthy as soon as its
transporter exists, the send handler cannot answer with the
`INVITE_FROM_EMAIL` error payload. -/
theorem handler_body_ne_from_error (cfg : Config)
    (himp : cfg.transporter = true → jsTruthy cfg.inviteFromEmail = true)
    (req : Request) (d : Dispatcher) :
    (sendInviteHandler cfg req d).body ≠
      RespBody.errorMsg "INVITE_FROM_EMAIL is not configured." := by
  simp only [sendInviteHandler]
  split
  · simp
  · split
    · simp
    · cases htr : cfg.transporter with
      | false => simp [htr]
      | true =>
        cases hu : jsTruthy cfg.smtpUser with
        | false => simp [htr, hu]
        | true =>
          cases hp2 : jsTruthy cfg.smtpPass with
          | false => simp [htr, hu, hp2]
          | true =>
            have hfe := himp htr
            simp only [htr, hu, hp2, hfe, Bool.not_true, Bool.or_self,
              Bool.false_or, Bool.or_false, if_false]
            split
            · simp_all
            · split <;> simp

/-! ## Concrete inputs used by the witnesses -/

/-- A configuration with working SMTP credentials and no API key. -/
def cfgOpen : Config :=
  { smtpUser := some "u@x.com", smtpPass := some "p"
  , inviteFromName := "Attendance Platform", inviteFromEmail := some "u@x.com"
  , inviteReplyTo := none, apiKey := none
  , allowedOrigins := ["*"], allowAnyOrigin := true, transporter := true }

/-- `cfgOpen` with an API key configured. -/
def cfgKeyed : Config := { cfgOpen with apiKey := some "secret" }

/-- `cfgOpen` without a constructed transporter. -/
def cfgNoSmtp : Config :=
  { cfgOpen with
    smtpUser := none, smtpPass := none, inviteFromEmail := none, transporter := false }

/-- A transporter-constructed configuration whose sender address is empty;
not derivable from any environment (see the C6 theorem) but a legal handler
state. -/
def cfgNoFrom : Config := { cfgOpen with inviteFromEmail := none }

/-- A well-formed send request without an API-key header. -/
def reqGood : Request :=
  { method := "POST", path := "/send-invite-email"
  , originHeader := none, apiKeyHeader := none
  , body := some { emptyPayload with email := some "a@b.com", link := some "https://x" } }

/-- A send request whose email is whitespace-only. -/
def reqBlankEmail : Request :=
  { reqGood with
    body := some { emptyPayload with email := some "   ", link := some "https://x" } }

/-- A dispatcher that always succeeds with message id `"abc123"`. -/
def dOk : Dispatcher := fun _ => .ok ⟨some "abc123"⟩

/-- A dispatcher that always throws `"connection refused"`. -/
def dRefused : Dispatcher := fun _ => .error "connection refused"

/-- Composer input with only a `team_lead` role and a link. -/
def inpTeamLead : ComposeInput :=
  { firstName := none, lastName := none, role := some "team_lead"
  , organizationName := none, link := "https://x" }

/-- Composer input whose organization name is whitespace-only. -/
def inpBlankOrg : ComposeInput :=
  { firstName := some "John", lastName := some "Doe", role := none
  , organizationName := some "   ", link := "https://x" }

/-! ## Claims -/

/-- C4 (counterexample): the claim's procedure trims the bracketed portion,
but the source trims only the whole input before bracket extraction; on
`"John Doe < JOHN@EXAMPLE.com >"` the code keeps the inner spaces and returns
`" john@example.com "`, while the claimed procedure returns
`"john@example.com"`. -/
theorem extractEmail_claim_counterexample :
    extractEmail (some "John Doe < JOHN@EXAMPLE.com >") = some " john@example.com " ∧
    extractEmailSpec (some "John Doe < JOHN@EXAMPLE.com >") = some "john@example.com" ∧
    extractEmail (some "John Doe < JOHN@EXAMPLE.com >") ≠
      extractEmailSpec (some "John Doe < JOHN@EXAMPLE.com >") :=
  ⟨by decide, by decide, by decide⟩

/-- C4 (amended): `extractEmail` accepts a bare address or a
`"Display Name <addr@host>"` form; it trims the whole input (null for
non-strings and for a whitespace-only input), extracts the bracketed portion
of the trimmed input if one is present (without further trimming), lower-cases
it, and returns it iff the result contains `@`, otherwise null; in particular
`extractEmail "John Doe <JOHN@EXAMPLE.com>" = "john@example.com"` and
`extractEmail "not-an-email" = null`. -/
theorem extractEmail_amended (v : Option String) :
    extractEmail v = extractEmailAmended v ∧
    extractEmail (some "John Doe <JOHN@EXAMPLE.com>") = some "john@example.com" ∧
    extractEmail (some "not-an-email") = none := by
  refine ⟨?_, by decide, by decide⟩
  cases v with
  | none => rfl
  | some v =>
    simp only [extractEmail, extractEmailAmended, Option.bind]
    cases h : firstAngle (jsTrim v).data <;> simp [h]

/-- C9: whenever `organization_name` is missing, or is not a non-empty string
after trimming, the composed subject is exactly
`"You're invited to Attendance Platform"`. -/
theorem missing_org_default_subject (inp : ComposeInput)
    (horg : inp.organizationName = none ∨
      ∃ s, inp.organizationName = some s ∧ jsTrim s = "") :
    (buildInviteBodies inp).subject = "You're invited to Attendance Platform" := by
  have hso : subjectOrgOf inp.organizationName = "Attendance Platform" := by
    rcases horg with h | ⟨s, hs, ht⟩
    · rw [h]; rfl
    · rw [hs]
      have h2 : (jsTrim s).data.isEmpty = true := by rw [ht]; decide
      simp only [subjectOrgOf]
      split
      · rfl
      · simp [h2]
  simp only [buildInviteBodies, hso]
  decide

/-- C9 witness: a whitespace-only organization name yields the default
subject. -/
theorem missing_org_default_subject_witness :
    (buildInviteBodies inpBlankOrg).subject = "You're invited to Attendance Platform" :=
  missing_org_default_subject inpBlankOrg (Or.inr ⟨"   ", rfl, by decide⟩)

/-- C10: for every composer input whose role is not the (present but empty)
string, the role label is the provided role with every underscore replaced by
a space, defaulting to `"member"` when the role is absent, and that label
occurs verbatim in both the plain-text body and the HTML body. -/
theorem role_label_in_both_bodies (inp : ComposeInput) (h : inp.role ≠ some "") :
    roleLabelOf inp.role = roleLabelClaim inp.role ∧
    strContains (buildInviteBodies inp).textBody (roleLabelOf inp.role) ∧
    strContains (buildInviteBodies inp).htmlBody (roleLabelOf inp.role) := by
  refine ⟨?_, ?_, ?_⟩
  · cases hr : inp.role with
    | none => rfl
    | some r =>
      have hne' : r ≠ "" := fun he => h (by rw [hr, he])
      have hne : r.data.isEmpty = false := by
        cases he : r.data.isEmpty
        · rfl
        · exact absurd ((data_isEmpty_iff r).mp he) hne'
      simp [roleLabelOf, roleLabelClaim, hne]
  · exact ⟨"Hi " ++ recipientNameOf inp.firstName inp.lastName ++
      ",\n\nYou've been invited to join " ++ subjectOrgOf inp.organizationName ++
      " as a ",
      ".\nUse the link below to set up your username and password:\n" ++ inp.link ++
      "\n\nIf you were not expecting this email, you can ignore it.",
      by simp [buildInviteBodies, String.append_assoc]⟩
  · exact ⟨"\n    <p>Hi " ++ recipientNameOf inp.firstName inp.lastName ++
      ",</p>\n    <p>You've been invited to join <strong>" ++
      subjectOrgOf inp.organizationName ++ "</strong> as a <strong>",
      "</strong>.</p>\n    <p><a href=\"" ++ inp.link ++
      "\" target=\"_blank\" rel=\"noopener noreferrer\">Click here to finish registration</a>.</p>\n    <p>If you were not expecting this email, you can ignore it.</p>\n  ",
      by simp [buildInviteBodies, String.append_assoc]⟩

/-- C10 witness: `role = "team_lead"` yields the label `"team lead"`, which
occurs in both bodies. -/
theorem role_label_in_both_bodies_witness :
    roleLabelOf (some "team_lead") = "team lead" ∧
    (roleLabelOf inpTeamLead.role = roleLabelClaim inpTeamLead.role ∧
     strContains (buildInviteBodies inpTeamLead).textBody (roleLabelOf inpTeamLead.role) ∧
     strContains (buildInviteBodies inpTeamLead).htmlBody (roleLabelOf inpTeamLead.role)) :=
  ⟨by decide, role_label_in_both_bodies inpTeamLead (by decide)⟩

/-- C1: an authorized `POST /send-invite-email` request whose body lacks a
valid email (`extractEmail` gives null, which covers empty and whitespace-only
values) or whose link normalizes to the empty string is answered 400 with the
required-fields error payload, and the dispatcher is never invoked. -/
theorem missing_email_or_link_400 (cfg : Config) (req : Request) (d : Dispatcher)
    (hm : req.method = "POST") (hp : req.path = "/send-invite-email")
    (hauth : authRejects cfg req = false)
    (hbad : extractEmail (payloadOf req).email = none ∨
      normalizedLink (payloadOf req) = "") :
    (service cfg req d).status = 400 ∧
    (service cfg req d).body =
      RespBody.errorMsg "Email and registration link are required." ∧
    (service cfg req d).dispatched = none := by
  obtain ⟨hst, hbo, hdi, -⟩ := service_parts cfg req d
  rw [hst, hbo, hdi, route_post_send cfg req d hm hp]
  have hcond : (!jsTruthy (extractEmail (payloadOf req).email) ||
      (normalizedLink (payloadOf req)).data.isEmpty) = true := by
    rcases hbad with h | h
    · rw [h]; rfl
    · rw [h]
      have he : (("" : String).data.isEmpty) = true := by decide
      rw [he]
      simp
  simp [sendInviteHandler, hauth, hcond]

/-- C1 witness: a whitespace-only email is rejected with 400 and no
dispatch. -/
theorem missing_email_or_link_400_witness :
    (service cfgOpen reqBlankEmail dOk).status = 400 ∧
    (service cfgOpen reqBlankEmail dOk).body =
      RespBody.errorMsg "Email and registration link are required." ∧
    (service cfgOpen reqBlankEmail dOk).dispatched = none :=
  missing_email_or_link_400 cfgOpen reqBlankEmail dOk rfl rfl (by decide)
    (Or.inl (by decide))

/-- C2: an authorized, fully valid `POST /send-invite-email` request that
passes the configuration checks reaches dispatch; a dispatcher returning a
message id (`some ""` excluded, which JavaScript truthiness maps to null)
yields 200 `{delivered: true, messageId: <id or null>}` and a throwing
dispatcher yields 502 `{delivered: false, reason: <error message>}`. -/
theorem dispatch_outcome_response (cfg : Config) (req : Request)
    (mid : Option String) (m : String) (d1 d2 : Dispatcher)
    (hm : req.method = "POST") (hp : req.path = "/send-invite-email")
    (hauth : authRejects cfg req = false)
    (hemail : extractEmail (payloadOf req).email ≠ none)
    (hlink : normalizedLink (payloadOf req) ≠ "")
    (htr : cfg.transporter = true)
    (huser : jsTruthy cfg.smtpUser = true)
    (hpass : jsTruthy cfg.smtpPass = true)
    (hfrom : jsTruthy cfg.inviteFromEmail = true)
    (hmid : mid ≠ some "")
    (hd1 : ∀ msg, d1 msg = Except.ok ⟨mid⟩)
    (hd2 : ∀ msg, d2 msg = Except.error m) :
    ((service cfg req d1).status = 200 ∧
     (service cfg req d1).body = RespBody.deliveredOk mid) ∧
    ((service cfg req d2).status = 502 ∧
     (service cfg req d2).body = RespBody.deliveredFail m) := by
  have hlinkne : (normalizedLink (payloadOf req)).data.isEmpty = false := by
    cases he : (normalizedLink (payloadOf req)).data.isEmpty
    · rfl
    · exact absurd ((data_isEmpty_iff _).mp he) hlink
  have hcond : (!jsTruthy (extractEmail (payloadOf req).email) ||
      (normalizedLink (payloadOf req)).data.isEmpty) = false := by
    rw [jsTruthy_extractEmail_of_ne_none _ hemail, hlinkne]
    rfl
  have hcreds : (!cfg.transporter || !jsTruthy cfg.smtpUser ||
      !jsTruthy cfg.smtpPass) = false := by
    rw [htr, huser, hpass]
    rfl
  have hfrom' : (!jsTruthy cfg.inviteFromEmail) = false := by rw [hfrom]; rfl
  have hmsg := jsOrNull_of_ne_some_empty mid hmid
  constructor
  · obtain ⟨hst, hbo, -, -⟩ := service_parts cfg req d1
    rw [hst, hbo, route_post_send cfg req d1 hm hp]
    simp [sendInviteHandler, hauth, hcond, hcreds, hfrom', hd1, hmsg]
  · obtain ⟨hst, hbo, -, -⟩ := service_parts cfg req d2
    rw [hst, hbo, route_post_send cfg req d2 hm hp]
    simp [sendInviteHandler, hauth, hcond, hcreds, hfrom', hd2]

/-- C2 witness: for a valid request, `dOk` (id `"abc123"`) maps to
200/delivered and `dRefused` (throws `"connection refused"`) maps to
502/reason. -/
theorem dispatch_outcome_response_witness :
    ((service cfgOpen reqGood dOk).status = 200 ∧
     (service cfgOpen reqGood dOk).body = RespBody.deliveredOk (some "abc123")) ∧
    ((service cfgOpen reqGood dRefused).status = 502 ∧
     (service cfgOpen reqGood dRefused).body =
       RespBody.deliveredFail "connection refused") :=
  dispatch_outcome_response cfgOpen reqGood (some "abc123") "connection refused"
    dOk dRefused rfl rfl (by decide) (by decide) (by decide) (by decide)
    (by decide) (by decide) (by decide) (by decide)
    (fun _ => rfl) (fun _ => rfl)

/-- C3: when an API key is configured, a `POST /send-invite-email` request
whose `x-api-key` header differs from it (in particular an absent header) is
answered 401 `{error: "Unauthorized"}`, whatever the body, and nothing is
dispatched. -/
theorem api_key_required_401 (cfg : Config) (req : Request) (d : Dispatcher)
    (hm : req.method = "POST") (hp : req.path = "/send-invite-email")
    (hkey : jsTruthy cfg.apiKey = true)
    (hne : req.apiKeyHeader ≠ cfg.apiKey) :
    (service cfg req d).status = 401 ∧
    (service cfg req d).body = RespBody.errorMsg "Unauthorized" ∧
    (service cfg req d).dispatched = none := by
  obtain ⟨hst, hbo, hdi, -⟩ := service_parts cfg req d
  rw [hst, hbo, hdi, route_post_send cfg req d hm hp]
  have hrej : authRejects cfg req = true := by
    unfold authRejects
    rw [hkey, bne_iff_ne.mpr hne]
    simp
  simp [sendInviteHandler, hrej]

/-- C3 witness: with a configured key and no `x-api-key` header, a request
with a perfectly valid body is answered 401 and nothing is dispatched. -/
theorem api_key_required_401_witness :
    (service cfgKeyed reqGood dOk).status = 401 ∧
    (service cfgKeyed reqGood dOk).body = RespBody.errorMsg "Unauthorized" ∧
    (service cfgKeyed reqGood dOk).dispatched = none :=
  api_key_required_401 cfgKeyed reqGood dOk rfl rfl (by decide) (by decide)

/-- C5: for an authorized, valid send request, a missing transporter yields
500 naming the SMTP credentials with no dispatch; a constructed transporter
with an empty resolved sender email yields 500 naming `INVITE_FROM_EMAIL`
with no dispatch; and the two payloads are distinct. -/
theorem misconfiguration_500 (cfg : Config) (req : Request) (d : Dispatcher)
    (hm : req.method = "POST") (hp : req.path = "/send-invite-email")
    (hauth : authRejects cfg req = false)
    (hemail : extractEmail (payloadOf req).email ≠ none)
    (hlink : normalizedLink (payloadOf req) ≠ "") :
    (cfg.transporter = false →
      (service cfg req d).status = 500 ∧
      (service cfg req d).body =
        RespBody.errorMsg "SMTP credentials are not configured." ∧
      (service cfg req d).dispatched = none) ∧
    (cfg.transporter = true → jsTruthy cfg.smtpUser = true →
      jsTruthy cfg.smtpPass = true → jsTruthy cfg.inviteFromEmail = false →
      (service cfg req d).status = 500 ∧
      (service cfg req d).body =
        RespBody.errorMsg "INVITE_FROM_EMAIL is not configured." ∧
      (service cfg req d).dispatched = none) ∧
    RespBody.errorMsg "SMTP credentials are not configured." ≠
      RespBody.errorMsg "INVITE_FROM_EMAIL is not configured." := by
  obtain ⟨hst, hbo, hdi, -⟩ := service_parts cfg req d
  have hlinkne : (normalizedLink (payloadOf req)).data.isEmpty = false := by
    cases he : (normalizedLink (payloadOf req)).data.isEmpty
    · rfl
    · exact absurd ((data_isEmpty_iff _).mp he) hlink
  have hcond : (!jsTruthy (extractEmail (payloadOf req).email) ||
      (normalizedLink (payloadOf req)).data.isEmpty) = false := by
    rw [jsTruthy_extractEmail_of_ne_none _ hemail, hlinkne]
    rfl
  refine ⟨?_, ?_, by decide⟩
  · intro htr
    rw [hst, hbo, hdi, route_post_send cfg req d hm hp]
    have hcreds : (!cfg.transporter || !jsTruthy cfg.smtpUser ||
        !jsTruthy cfg.smtpPass) = true := by rw [htr]; rfl
    simp [sendInviteHandler, hauth, hcond, hcreds]
  · intro htr huser hpass hfrom
    rw [hst, hbo, hdi, route_post_send cfg req d hm hp]
    have hcreds : (!cfg.transporter || !jsTruthy cfg.smtpUser ||
        !jsTruthy cfg.smtpPass) = false := by rw [htr, huser, hpass]; rfl
    have hfrom' : (!jsTruthy cfg.inviteFromEmail) = true := by rw [hfrom]; rfl
    simp [sendInviteHandler, hauth, hcond, hcreds, hfrom']

/-- C5 witness: the two misconfigurations on a valid request, reported
distinctly: `cfgNoSmtp` gives the credentials payload, `cfgNoFrom` the
sender-address payload, each with no dispatch. -/
theorem misconfiguration_500_witness :
    ((service cfgNoSmtp reqGood dOk).status = 500 ∧
     (service cfgNoSmtp reqGood dOk).body =
       RespBody.errorMsg "SMTP credentials are not configured." ∧
     (service cfgNoSmtp reqGood dOk).dispatched = none) ∧
    ((service cfgNoFrom reqGood dOk).status = 500 ∧
     (service cfgNoFrom reqGood dOk).body =
       RespBody.errorMsg "INVITE_FROM_EMAIL is not configured." ∧
     (service cfgNoFrom reqGood dOk).dispatched = none) :=
  ⟨(misconfiguration_500 cfgNoSmtp reqGood dOk rfl rfl (by decide) (by decide)
      (by decide)).1 rfl,
   (misconfiguration_500 cfgNoFrom reqGood dOk rfl rfl (by decide) (by decide)
      (by decide)).2.1 rfl (by decide) (by decide) (by decide)⟩

/-- C6: under the code's configuration derivation the resolved sender email
falls back to the SMTP user, so whenever the derived transporter exists the
sender email is truthy, and the handler's
`{error: "INVITE_FROM_EMAIL is not configured."}` branch is unreachable from
any environment. -/
theorem from_email_branch_unreachable (e : Env) (req : Request) (d : Dispatcher) :
    ((deriveConfig e).transporter = true →
      jsTruthy (deriveConfig e).inviteFromEmail = true) ∧
    (sendInviteHandler (deriveConfig e) req d).body ≠
      RespBody.errorMsg "INVITE_FROM_EMAIL is not configured." := by
  have h1 : (deriveConfig e).transporter = true →
      jsTruthy (deriveConfig e).inviteFromEmail = true := by
    intro ht
    simp only [deriveConfig] at ht ⊢
    rw [jsTruthy_jsOr]
    simp only [Bool.and_eq_true] at ht
    rw [ht.1]
    simp
  refine ⟨h1, handler_body_ne_from_error (deriveConfig e) h1 req d⟩

/-- C6 witness: with SMTP credentials set and `INVITE_FROM_EMAIL` unset, the
derived sender email is truthy and the send handler does not produce the
sender-address error. -/
theorem from_email_branch_unreachable_witness :
    jsTruthy (deriveConfig
      { SMTP_USER := some "u@x.com", SMTP_PASS := some "p"
      , INVITE_FROM_NAME := none, INVITE_FROM_EMAIL := none
      , INVITE_REPLY_TO := none, INVITE_EMAIL_API_KEY := none
      , INVITE_ALLOWED_ORIGINS := none }).inviteFromEmail = true ∧
    (sendInviteHandler (deriveConfig
      { SMTP_USER := some "u@x.com", SMTP_PASS := some "p"
      , INVITE_FROM_NAME := none, INVITE_FROM_EMAIL := none
      , INVITE_REPLY_TO := none, INVITE_EMAIL_API_KEY := none
      , INVITE_ALLOWED_ORIGINS := none }) reqGood dOk).body ≠
      RespBody.errorMsg "INVITE_FROM_EMAIL is not configured." :=
  ⟨(from_email_branch_unreachable _ reqGood dOk).1 (by decide),
   (from_email_branch_unreachable _ reqGood dOk).2⟩

/-- C7: when no API key is configured, the complete response (status, headers,
body, dispatch) is unchanged under any change of the `x-api-key` header. -/
theorem no_api_key_header_independence (cfg : Config) (req : Request)
    (k2 : Option String) (d : Dispatcher)
    (hkey : jsTruthy cfg.apiKey = false) :
    service cfg req d = service cfg { req with apiKeyHeader := k2 } d := by
  simp [service, route, sendInviteHandler, authRejects, applyCors, payloadOf,
    normalizedLink, hkey]

/-- C7 witness: with no key configured, attaching a bogus `x-api-key` header
to a request leaves the response identical. -/
theorem no_api_key_header_independence_witness :
    service cfgOpen reqGood dOk =
      service cfgOpen { reqGood with apiKeyHeader := some "wrong" } dOk :=
  no_api_key_header_independence cfgOpen reqGood (some "wrong") dOk (by decide)

/-- C8: in wildcard CORS mode, every response of the service, whatever the
request, route or dispatch outcome, carries the header
`Access-Control-Allow-Origin: *`. -/
theorem wildcard_cors_all_responses (cfg : Config) (req : Request)
    (d : Dispatcher) (hw : cfg.allowAnyOrigin = true) :
    ("Access-Control-Allow-Origin", "*") ∈ (service cfg req d).headers := by
  rw [(service_parts cfg req d).2.2.2]
  unfold applyCors
  rw [hw]
  simp

/-- C8 witness: a 401 error response in wildcard mode carries the wildcard
CORS header. -/
theorem wildcard_cors_all_responses_witness :
    ("Access-Control-Allow-Origin", "*") ∈ (service cfgKeyed reqGood dOk).headers :=
  wildcard_cors_all_responses cfgKeyed reqGood dOk (by decide)

end InviteEmail
